import Mathlib

/-!
Shallow embedding of the sysmlv2-python-client repository
(`src/sysmlv2_client/client.py` and `src/sysmlv2_client/exceptions.py`).

JSON values are modelled by an inductive type; the HTTP transport and the
JSON decoder of the response body are external collaborators, so a request
outcome is supplied as data: either a transport failure (carrying the
exception message) or a response with a status code, a raw body text and
the result of attempting to JSON-decode that body.
-/

/-- JSON values, the data passed through the client. -/
inductive Json where
  | null : Json
  | bool (b : Bool) : Json
  | num (n : Int) : Json
  | str (s : String) : Json
  | arr (elems : List Json) : Json
  | obj (fields : List (String × Json)) : Json

/-- Whether a JSON value is an array (`isinstance(x, list)` in the source). -/
def Json.isArr : Json → Bool
  | .arr _ => true
  | _ => false

/-- Whether a JSON value is an object (`isinstance(x, dict)` in the source). -/
def Json.isObj : Json → Bool
  | .obj _ => true
  | _ => false

mutual

/-- Python `str()` rendering of a decoded JSON value (used in the 400 branch
of `_request` when interpolating `error_details` into the message). -/
def pyStr : Json → String
  | .null => "None"
  | .bool true => "True"
  | .bool false => "False"
  | .num n => toString n
  | .str s => "\x27" ++ s ++ "\x27"
  | .arr xs => "[" ++ pyStrList xs ++ "]"
  | .obj fs => "\x7b" ++ pyStrFields fs ++ "\x7d"

def pyStrList : List Json → String
  | [] => ""
  | [x] => pyStr x
  | x :: y :: xs => pyStr x ++ ", " ++ pyStrList (y :: xs)

def pyStrFields : List (String × Json) → String
  | [] => ""
  | [kv] => "\x27" ++ kv.1 ++ "\x27: " ++ pyStr kv.2
  | kv :: kv2 :: fs => "\x27" ++ kv.1 ++ "\x27: " ++ pyStr kv.2 ++ ", " ++ pyStrFields (kv2 :: fs)

end

mutual

/-- `json.dumps` serialization of a request body. -/
def jsonDumps : Json → String
  | .null => "null"
  | .bool true => "true"
  | .bool false => "false"
  | .num n => toString n
  | .str s => "\x22" ++ s ++ "\x22"
  | .arr xs => "[" ++ jsonDumpsList xs ++ "]"
  | .obj fs => "\x7b" ++ jsonDumpsFields fs ++ "\x7d"

def jsonDumpsList : List Json → String
  | [] => ""
  | [x] => jsonDumps x
  | x :: y :: xs => jsonDumps x ++ ", " ++ jsonDumpsList (y :: xs)

def jsonDumpsFields : List (String × Json) → String
  | [] => ""
  | [kv] => "\x22" ++ kv.1 ++ "\x22: " ++ jsonDumps kv.2
  | kv :: kv2 :: fs => "\x22" ++ kv.1 ++ "\x22: " ++ jsonDumps kv.2 ++ ", " ++ jsonDumpsFields (kv2 :: fs)

end

/-- Python truthiness of a JSON value (`if data` on line 74 of client.py):
`None`, `False`, `0`, `""`, `[]` and the empty dict are falsy. -/
def pyTruthy : Json → Bool
  | .null => false
  | .bool b => b
  | .num n => n != 0
  | .str s => s != ""
  | .arr xs => !xs.isEmpty
  | .obj fs => !fs.isEmpty

/-- The exception classes involved: Python builtins `Exception` and
`ValueError`, and the hierarchy declared in exceptions.py. -/
inductive PyExcClass where
  | exception : PyExcClass
  | valueError : PyExcClass
  | sysmlv2Error : PyExcClass
  | sysmlv2AuthError : PyExcClass
  | sysmlv2APIError : PyExcClass
  | sysmlv2NotFoundError : PyExcClass
  | sysmlv2BadRequestError : PyExcClass
  | sysmlv2ConflictError : PyExcClass
deriving DecidableEq

/-- Immediate superclass, read off the class declarations:
`SysMLV2Error(Exception)`, `SysMLV2AuthError(SysMLV2Error)`,
`SysMLV2APIError(SysMLV2Error)`, and the three status-specific classes
extend `SysMLV2APIError`; `ValueError` is a builtin under `Exception`. -/
def PyExcClass.parent : PyExcClass → Option PyExcClass
  | .exception => none
  | .valueError => some .exception
  | .sysmlv2Error => some .exception
  | .sysmlv2AuthError => some .sysmlv2Error
  | .sysmlv2APIError => some .sysmlv2Error
  | .sysmlv2NotFoundError => some .sysmlv2APIError
  | .sysmlv2BadRequestError => some .sysmlv2APIError
  | .sysmlv2ConflictError => some .sysmlv2APIError

/-- The chain of a class and its superclasses (fuel bounds the depth,
which is at most 4 here). -/
def PyExcClass.chainAux : Nat → PyExcClass → List PyExcClass
  | 0, _ => []
  | n + 1, c =>
    c :: (match c.parent with
          | none => []
          | some p => PyExcClass.chainAux n p)

/-- All superclasses of a class, the class itself included. -/
def PyExcClass.superchain (c : PyExcClass) : List PyExcClass :=
  PyExcClass.chainAux 8 c

/-- `issubclass(c, d)` in Python. -/
def PyExcClass.isSubclassOf (c d : PyExcClass) : Bool :=
  c.superchain.contains d

/-- A raised exception object: its class, its `status_code` attribute when
one was set by a constructor, and its `message` / `str()` text. -/
structure PyErr where
  cls : PyExcClass
  statusCode : Option Nat
  msg : String
deriving DecidableEq

/-- Whether `except D:` catches an exception object `e`. -/
def catches (handler : PyExcClass) (e : PyErr) : Bool :=
  e.cls.isSubclassOf handler

/-- Raising the builtin `ValueError(msg)`. -/
def mkValueError (msg : String) : PyErr :=
  { cls := .valueError, statusCode := none, msg := msg }

/-- Raising `SysMLV2Error(msg)`: no `status_code` attribute is set. -/
def mkSysMLV2Error (msg : String) : PyErr :=
  { cls := .sysmlv2Error, statusCode := none, msg := msg }

/-- Raising `SysMLV2AuthError(msg)`: inherits the plain `__init__`, so it
carries only a message, no `status_code` attribute. -/
def mkSysMLV2AuthError (msg : String) : PyErr :=
  { cls := .sysmlv2AuthError, statusCode := none, msg := msg }

/-- The `SysMLV2APIError.__init__(status_code, message)` body, shared by the
subclasses through `super().__init__`: it sets `self.status_code` and
formats `self.message`. -/
def apiErrorInit (cls : PyExcClass) (status_code : Nat) (message : String) : PyErr :=
  { cls := cls
    statusCode := some status_code
    msg := message ++ " (Status code: " ++ toString status_code ++ ")" }

/-- Raising `SysMLV2APIError(status_code, message)`. -/
def mkSysMLV2APIError (status_code : Nat) (message : String) : PyErr :=
  apiErrorInit .sysmlv2APIError status_code message

/-- Raising `SysMLV2NotFoundError(message)`: fixed status code 404. -/
def mkSysMLV2NotFoundError (message : String) : PyErr :=
  apiErrorInit .sysmlv2NotFoundError 404 message

/-- Raising `SysMLV2BadRequestError(message)`: fixed status code 400. -/
def mkSysMLV2BadRequestError (message : String) : PyErr :=
  apiErrorInit .sysmlv2BadRequestError 400 message

/-- Raising `SysMLV2ConflictError(message)`: fixed status code 409. -/
def mkSysMLV2ConflictError (message : String) : PyErr :=
  apiErrorInit .sysmlv2ConflictError 409 message

/-- An HTTP response as the client observes it: status code, raw body text
(`response.text`, empty iff `response.content` is empty), and the outcome
of `response.json()` — a decoded value or a decode-error message. -/
structure Resp where
  status : Nat
  text : String
  parsed : Except String Json

/-- The transport's behavior for one issued request: either a
`requests.exceptions.RequestException` (carrying its message) or a response. -/
abbrev TransportOutcome := Except String Resp

/-- Client state built by `SysMLV2Client.__init__` on success. -/
structure SysMLV2Client where
  base_url : String
  bearer_token : String
  headers : List (String × String)

/-- Python `s.rstrip('/')`: removes every trailing `'/'`. -/
def rstripSlash (s : String) : String :=
  ⟨(s.data.reverse.dropWhile (fun c => c = '/')).reverse⟩

/-- ASCII lowercasing of one character, as Python `str.lower` acts on the
ASCII range. -/
def pyLowerChar (c : Char) : Char :=
  if 65 ≤ c.toNat ∧ c.toNat ≤ 90 then Char.ofNat (c.toNat + 32) else c

/-- Python `s.lower()` (ASCII range). -/
def pyLower (s : String) : String :=
  ⟨s.data.map pyLowerChar⟩

/-- Python `s.startswith(pre)`. -/
def pyStartsWith (s pre : String) : Bool :=
  pre.data.isPrefixOf s.data

/-- `SysMLV2Client.__init__(base_url, bearer_token)`: validates both
arguments (raising `ValueError`) and otherwise stores the right-stripped
base URL and the fixed header set. -/
def SysMLV2Client.init (base_url bearer_token : String) : Except PyErr SysMLV2Client :=
  if base_url = "" then
    .error (mkValueError "base_url cannot be empty.")
  else if bearer_token = "" ∨ ¬ (pyStartsWith (pyLower bearer_token) "bearer ") then
    .error (mkValueError "bearer_token must be provided and start with \x27Bearer \x27.")
  else
    .ok { base_url := rstripSlash base_url
          bearer_token := bearer_token
          headers := [("Authorization", bearer_token),
                      ("Content-Type", "application/json"),
                      ("Accept", "application/json")] }

/-- Line 74 of client.py: `json_data = json.dumps(data) if data else None` —
the body actually sent with the request. -/
def sentBody (data : Option Json) : Option String :=
  match data with
  | none => none
  | some d => if pyTruthy d then some (jsonDumps d) else none

/-- `SysMLV2Client._request`: classifies the transport outcome in source
order — transport failure, 401/403, 404, 400, 409, unexpected status,
204-or-empty-body, JSON decode of the body. -/
def SysMLV2Client.request (st : SysMLV2Client) (method endpoint : String)
    (data : Option Json) (expected_status : Nat)
    (outcome : TransportOutcome) : Except PyErr Json :=
  let url := st.base_url ++ endpoint
  let _json_data := sentBody data
  match outcome with
  | .error e =>
    .error (mkSysMLV2Error ("Network error during request to " ++ url ++ ": " ++ e))
  | .ok response =>
    if response.status = 401 ∨ response.status = 403 then
      .error (mkSysMLV2AuthError
        ("Authentication failed: " ++ toString response.status ++ " - " ++ response.text))
    else if response.status = 404 then
      .error (mkSysMLV2NotFoundError
        ("Resource not found at " ++ endpoint ++ ": " ++ response.text))
    else if response.status = 400 then
      let error_details :=
        match response.parsed with
        | .ok j => pyStr j
        | .error _ => response.text
      .error (mkSysMLV2BadRequestError
        ("Bad request for " ++ endpoint ++ ": " ++ error_details))
    else if response.status = 409 then
      .error (mkSysMLV2ConflictError
        ("Conflict detected for " ++ endpoint ++ ": " ++ response.text))
    else if response.status ≠ expected_status then
      .error (mkSysMLV2APIError response.status
        ("Unexpected status code for " ++ method ++ " " ++ endpoint ++
         ". Response: " ++ response.text))
    else if response.status = 204 ∨ response.text = "" then
      .ok (Json.obj [])
    else
      match response.parsed with
      | .ok j => .ok j
      | .error e =>
        .error (mkSysMLV2Error
          ("Failed to decode JSON response from " ++ url ++ ": " ++ e ++
           ". Response text: " ++ response.text))

/-- The list-normalization applied by `get_projects` (lines 131–139) and,
with identical code, by `get_owned_elements` (lines 221–228): a list is
returned directly, a dict yields `response_data.get('elements', [])`, any
other shape yields the empty list. -/
def extractElements (response_data : Json) : Json :=
  match response_data with
  | .arr xs => .arr xs
  | .obj fs => (fs.lookup "elements").getD (.arr [])
  | _ => .arr []

/-- `SysMLV2Client.get_projects`: GET /projects, expected status 200,
list-normalized. -/
def SysMLV2Client.get_projects (st : SysMLV2Client)
    (outcome : TransportOutcome) : Except PyErr Json :=
  match st.request "GET" "/projects" none 200 outcome with
  | .error e => .error e
  | .ok response_data => .ok (extractElements response_data)

/-- `SysMLV2Client.create_project`: POST /projects with the project data as
body, expected status 201. -/
def SysMLV2Client.create_project (st : SysMLV2Client) (project_data : Json)
    (outcome : TransportOutcome) : Except PyErr Json :=
  st.request "POST" "/projects" (some project_data) 201 outcome

/-- `SysMLV2Client.get_element`. -/
def SysMLV2Client.get_element (st : SysMLV2Client)
    (project_id element_id commit_id : String)
    (outcome : TransportOutcome) : Except PyErr Json :=
  st.request "GET"
    ("/projects/" ++ project_id ++ "/commits/" ++ commit_id ++ "/elements/" ++ element_id)
    none 200 outcome

/-- `SysMLV2Client.create_element`. -/
def SysMLV2Client.create_element (st : SysMLV2Client)
    (project_id : String) (element_data : Json) (commit_id : String)
    (outcome : TransportOutcome) : Except PyErr Json :=
  st.request "POST"
    ("/projects/" ++ project_id ++ "/commits/" ++ commit_id ++ "/elements")
    (some element_data) 201 outcome

/-- `SysMLV2Client.update_element`. -/
def SysMLV2Client.update_element (st : SysMLV2Client)
    (project_id element_id : String) (element_data : Json) (commit_id : String)
    (outcome : TransportOutcome) : Except PyErr Json :=
  st.request "PUT"
    ("/projects/" ++ project_id ++ "/commits/" ++ commit_id ++ "/elements/" ++ element_id)
    (some element_data) 200 outcome

/-- `SysMLV2Client.delete_element`: DELETE, expected status 204, returns
`None` on success (errors propagate). -/
def SysMLV2Client.delete_element (st : SysMLV2Client)
    (project_id element_id commit_id : String)
    (outcome : TransportOutcome) : Except PyErr Unit :=
  match st.request "DELETE"
      ("/projects/" ++ project_id ++ "/commits/" ++ commit_id ++ "/elements/" ++ element_id)
      none 204 outcome with
  | .error e => .error e
  | .ok _ => .ok ()

/-- `SysMLV2Client.get_owned_elements`: GET .../owned, expected status 200,
list-normalized with the same code as `get_projects`. -/
def SysMLV2Client.get_owned_elements (st : SysMLV2Client)
    (project_id element_id commit_id : String)
    (outcome : TransportOutcome) : Except PyErr Json :=
  match st.request "GET"
      ("/projects/" ++ project_id ++ "/commits/" ++ commit_id ++
       "/elements/" ++ element_id ++ "/owned")
      none 200 outcome with
  | .error e => .error e
  | .ok response_data => .ok (extractElements response_data)

/-- `SysMLV2Client.create_commit`: POST .../commits, expected status 201. -/
def SysMLV2Client.create_commit (st : SysMLV2Client)
    (project_id : String) (commit_data : Json)
    (outcome : TransportOutcome) : Except PyErr Json :=
  st.request "POST" ("/projects/" ++ project_id ++ "/commits")
    (some commit_data) 201 outcome

/-! ## Theorems -/

/-- A concrete client value, as built by a successful construction, used to
evaluate the operations at concrete inputs. -/
def cDemo : SysMLV2Client :=
  { base_url := "http://t"
    bearer_token := "Bearer t"
    headers := [("Authorization", "Bearer t"),
                ("Content-Type", "application/json"),
                ("Accept", "application/json")] }

/-- The client built by `SysMLV2Client.init "http://x//" "Bearer t"`:
the repeated trailing slashes are all stripped. -/
def cDemo2 : SysMLV2Client :=
  { base_url := "http://x"
    bearer_token := "Bearer t"
    headers := [("Authorization", "Bearer t"),
                ("Content-Type", "application/json"),
                ("Accept", "application/json")] }

/-- The head of `dropWhile p l` never satisfies `p`. -/
theorem head_dropWhile_false {α : Type} (p : α → Bool) :
    ∀ (l : List α) (a : α), (l.dropWhile p).head? = some a → p a = false := by
  intro l
  induction l with
  | nil => intro a h; simp [List.dropWhile] at h
  | cons x xs ih =>
    intro a h
    by_cases hp : p x
    · rw [List.dropWhile_cons_of_pos hp] at h
      exact ih a h
    · rw [List.dropWhile_cons_of_neg hp] at h
      simp at h
      subst h
      exact Bool.eq_false_iff.mpr hp

/-- C1: for the list-normalized operations `get_projects` and
`get_owned_elements`, the returned value is determined by the top-level
shape of the parsed JSON response: an array is returned as-is, an object
yields the value of its `elements` key (or the empty list if absent), and
any other shape yields the empty list. -/
theorem C1_list_normalization (st : SysMLV2Client)
    (project_id element_id commit_id : String)
    (o₁ o₂ : TransportOutcome) (j k : Json)
    (h₁ : st.request "GET" "/projects" none 200 o₁ = .ok j)
    (h₂ : st.request "GET"
        ("/projects/" ++ project_id ++ "/commits/" ++ commit_id ++
         "/elements/" ++ element_id ++ "/owned") none 200 o₂ = .ok k) :
    ((∀ xs, j = Json.arr xs → st.get_projects o₁ = .ok (Json.arr xs))
      ∧ (∀ fs, j = Json.obj fs →
          st.get_projects o₁ = .ok ((fs.lookup "elements").getD (Json.arr [])))
      ∧ ((∀ xs, j ≠ Json.arr xs) → (∀ fs, j ≠ Json.obj fs) →
          st.get_projects o₁ = .ok (Json.arr [])))
    ∧ ((∀ xs, k = Json.arr xs →
          st.get_owned_elements project_id element_id commit_id o₂ = .ok (Json.arr xs))
      ∧ (∀ fs, k = Json.obj fs →
          st.get_owned_elements project_id element_id commit_id o₂
            = .ok ((fs.lookup "elements").getD (Json.arr [])))
      ∧ ((∀ xs, k ≠ Json.arr xs) → (∀ fs, k ≠ Json.obj fs) →
          st.get_owned_elements project_id element_id commit_id o₂ = .ok (Json.arr []))) := by
  constructor
  · refine ⟨?_, ?_, ?_⟩
    · intro xs hj
      subst hj
      simp [SysMLV2Client.get_projects, h₁, extractElements]
    · intro fs hj
      subst hj
      simp [SysMLV2Client.get_projects, h₁, extractElements]
    · intro ha hb
      simp only [SysMLV2Client.get_projects, h₁]
      cases j with
      | arr xs => exact absurd rfl (ha xs)
      | obj fs => exact absurd rfl (hb fs)
      | null => simp [extractElements]
      | bool b => simp [extractElements]
      | num n => simp [extractElements]
      | str s => simp [extractElements]
  · refine ⟨?_, ?_, ?_⟩
    · intro xs hk
      subst hk
      simp [SysMLV2Client.get_owned_elements, h₂, extractElements]
    · intro fs hk
      subst hk
      simp [SysMLV2Client.get_owned_elements, h₂, extractElements]
    · intro ha hb
      simp only [SysMLV2Client.get_owned_elements, h₂]
      cases k with
      | arr xs => exact absurd rfl (ha xs)
      | obj fs => exact absurd rfl (hb fs)
      | null => simp [extractElements]
      | bool b => simp [extractElements]
      | num n => simp [extractElements]
      | str s => simp [extractElements]

/-- Witness for C1 at concrete inputs: the object, array and scalar shapes. -/
theorem C1_witness :
    cDemo.get_projects
        (.ok ⟨200, "b", .ok (Json.obj [("elements", Json.arr [Json.str "p1"])])⟩)
      = .ok (([("elements", Json.arr [Json.str "p1"])].lookup "elements").getD (Json.arr []))
    ∧ cDemo.get_owned_elements "p" "e" "m"
        (.ok ⟨200, "b", .ok (Json.arr [Json.str "o1"])⟩)
      = .ok (Json.arr [Json.str "o1"])
    ∧ cDemo.get_projects (.ok ⟨200, "b", .ok (Json.num 7)⟩) = .ok (Json.arr []) := by
  refine ⟨?_, ?_, ?_⟩
  · exact (C1_list_normalization cDemo "p" "e" "m"
      (.ok ⟨200, "b", .ok (Json.obj [("elements", Json.arr [Json.str "p1"])])⟩)
      (.ok ⟨200, "b", .ok (Json.arr [Json.str "o1"])⟩)
      (Json.obj [("elements", Json.arr [Json.str "p1"])]) (Json.arr [Json.str "o1"])
      rfl rfl).1.2.1 [("elements", Json.arr [Json.str "p1"])] rfl
  · exact (C1_list_normalization cDemo "p" "e" "m"
      (.ok ⟨200, "b", .ok (Json.obj [("elements", Json.arr [Json.str "p1"])])⟩)
      (.ok ⟨200, "b", .ok (Json.arr [Json.str "o1"])⟩)
      (Json.obj [("elements", Json.arr [Json.str "p1"])]) (Json.arr [Json.str "o1"])
      rfl rfl).2.1 [Json.str "o1"] rfl
  · exact (C1_list_normalization cDemo "p" "e" "m"
      (.ok ⟨200, "b", .ok (Json.num 7)⟩)
      (.ok ⟨200, "b", .ok (Json.arr [Json.str "o1"])⟩)
      (Json.num 7) (Json.arr [Json.str "o1"])
      rfl rfl).1.2.2 (fun xs h => Json.noConfusion h) (fun fs h => Json.noConfusion h)

/-- C2: a response with status 401 or 403 raises `SysMLV2AuthError` for
every method, endpoint and expected status — the check precedes the
generic expected-status comparison, so it fires even when 401 or 403 is
the expected status. -/
theorem C2_auth_precedence (st : SysMLV2Client) (method endpoint : String)
    (data : Option Json) (expected_status : Nat) (resp : Resp)
    (h : resp.status = 401 ∨ resp.status = 403) :
    st.request method endpoint data expected_status (.ok resp)
      = .error (mkSysMLV2AuthError
          ("Authentication failed: " ++ toString resp.status ++ " - " ++ resp.text))
    ∧ (mkSysMLV2AuthError
        ("Authentication failed: " ++ toString resp.status ++ " - " ++ resp.text)).cls
      = PyExcClass.sysmlv2AuthError := by
  refine ⟨?_, rfl⟩
  rcases h with h | h <;> simp [SysMLV2Client.request, h]

/-- Witness for C2: status 401 while 401 is also the expected status —
the authentication error still wins. -/
theorem C2_witness :
    cDemo.request "GET" "/projects" none 401 (.ok ⟨401, "nope", .error "e"⟩)
      = .error (mkSysMLV2AuthError "Authentication failed: 401 - nope") :=
  (C2_auth_precedence cDemo "GET" "/projects" none 401 ⟨401, "nope", .error "e"⟩
    (Or.inl rfl)).1

/-- C10: the 404, 400 and 409 error classes specialize `SysMLV2APIError`
and fix `status_code` to 404, 400 and 409 respectively, so a handler for
`SysMLV2APIError` catches all three; `SysMLV2AuthError` does not
specialize `SysMLV2APIError`, is not caught by such a handler, and sets no
`status_code` attribute — it carries only a message. -/
theorem C10_error_hierarchy (m : String) (sc : Nat) :
    PyExcClass.isSubclassOf .sysmlv2NotFoundError .sysmlv2APIError = true
    ∧ PyExcClass.isSubclassOf .sysmlv2BadRequestError .sysmlv2APIError = true
    ∧ PyExcClass.isSubclassOf .sysmlv2ConflictError .sysmlv2APIError = true
    ∧ (mkSysMLV2NotFoundError m).statusCode = some 404
    ∧ (mkSysMLV2BadRequestError m).statusCode = some 400
    ∧ (mkSysMLV2ConflictError m).statusCode = some 409
    ∧ catches .sysmlv2APIError (mkSysMLV2NotFoundError m) = true
    ∧ catches .sysmlv2APIError (mkSysMLV2BadRequestError m) = true
    ∧ catches .sysmlv2APIError (mkSysMLV2ConflictError m) = true
    ∧ PyExcClass.isSubclassOf .sysmlv2AuthError .sysmlv2APIError = false
    ∧ catches .sysmlv2APIError (mkSysMLV2AuthError m) = false
    ∧ (mkSysMLV2AuthError m).statusCode = none
    ∧ (mkSysMLV2APIError sc m).statusCode = some sc :=
  ⟨rfl, rfl, rfl, rfl, rfl, rfl, rfl, rfl, rfl, rfl, rfl, rfl, rfl⟩

/-- C3 counterexample: construction with an empty `base_url` raises the
builtin `ValueError`, whose class is not a specialization of the root
client error kind `SysMLV2Error` — so the failure is not a
"ConfigurationError specializing the single root client error kind". -/
theorem C3_counterexample :
    SysMLV2Client.init "" "Bearer t" = .error (mkValueError "base_url cannot be empty.")
    ∧ (mkValueError "base_url cannot be empty.").cls = PyExcClass.valueError
    ∧ PyExcClass.isSubclassOf .valueError .sysmlv2Error = false :=
  ⟨rfl, rfl, rfl⟩

/-- C3 (amended): constructing with an empty base_url, or with a
bearer_token that is empty or does not case-insensitively start with
"Bearer ", fails with the builtin `ValueError` — which is not a
specialization of the root client error kind — and construction is a pure
function of the two strings; all valid pairs construct successfully. -/
theorem C3_construction_validation (b t : String) :
    (b = "" → SysMLV2Client.init b t = .error (mkValueError "base_url cannot be empty."))
    ∧ (b ≠ "" → (t = "" ∨ pyStartsWith (pyLower t) "bearer " = false) →
        SysMLV2Client.init b t
          = .error (mkValueError
              "bearer_token must be provided and start with \x27Bearer \x27."))
    ∧ (b ≠ "" → t ≠ "" → pyStartsWith (pyLower t) "bearer " = true →
        (SysMLV2Client.init b t).isOk = true)
    ∧ (∀ m, PyExcClass.isSubclassOf (mkValueError m).cls .sysmlv2Error = false) := by
  refine ⟨?_, ?_, ?_, fun m => rfl⟩
  · intro hb
    simp [SysMLV2Client.init, hb]
  · intro hb ht
    rw [SysMLV2Client.init, if_neg hb, if_pos ?_]
    rcases ht with h | h
    · exact Or.inl h
    · exact Or.inr (by simp [h])
  · intro hb ht hs
    rw [SysMLV2Client.init, if_neg hb, if_neg ?_]
    · rfl
    · rintro (h | h)
      · exact ht h
      · exact h hs

/-- Witness for C3 at concrete inputs: both failure modes and one success. -/
theorem C3_witness :
    SysMLV2Client.init "" "Bearer t" = .error (mkValueError "base_url cannot be empty.")
    ∧ SysMLV2Client.init "http://t" "tok"
        = .error (mkValueError
            "bearer_token must be provided and start with \x27Bearer \x27.")
    ∧ (SysMLV2Client.init "http://t" "bEARER tok").isOk = true :=
  ⟨(C3_construction_validation "" "Bearer t").1 rfl,
   (C3_construction_validation "http://t" "tok").2.1 (by decide) (Or.inr (by decide)),
   (C3_construction_validation "http://t" "bEARER tok").2.2.1 (by decide) (by decide)
     (by decide)⟩

/-- C4 counterexample: `base_url.rstrip('/')` removes every trailing slash,
so `"http://x//"` is stored as `"http://x"`, not as the `"http://x/"` the
claim (exactly one slash stripped) predicts. -/
theorem C4_counterexample :
    (SysMLV2Client.init "http://x//" "Bearer t").map SysMLV2Client.base_url
      = .ok "http://x"
    ∧ ("http://x" : String) ≠ "http://x/" :=
  ⟨rfl, by decide⟩

/-- C4 (amended): for every valid pair, construction stores `base_url` with
ALL trailing `'/'` characters stripped: the stored value never ends in a
slash, and the input is the stored value followed by its run of trailing
slashes. -/
theorem C4_base_url_rstrip (b t : String) (c : SysMLV2Client)
    (h : SysMLV2Client.init b t = .ok c) :
    c.base_url = rstripSlash b
    ∧ c.base_url.data.getLast? ≠ some '/'
    ∧ b.data = c.base_url.data
        ++ List.replicate (b.data.reverse.takeWhile (fun ch => ch = '/')).length '/' := by
  have hc : c.base_url = rstripSlash b := by
    rw [SysMLV2Client.init] at h
    split at h
    · exact absurd h (by simp)
    · split at h
      · exact absurd h (by simp)
      · injection h with h
        rw [← h]
  refine ⟨hc, ?_, ?_⟩
  · rw [hc]
    intro hlast
    have hhead : ((b.data.reverse.dropWhile (fun ch => ch = '/')).head?) = some '/' := by
      rw [rstripSlash] at hlast
      simpa [List.getLast?_reverse] using hlast
    have := head_dropWhile_false (fun ch => ch = '/') b.data.reverse '/' hhead
    simp at this
  · rw [hc, rstripSlash]
    have hsplit :
        b.data.reverse.takeWhile (fun ch => ch = '/')
          ++ b.data.reverse.dropWhile (fun ch => ch = '/') = b.data.reverse :=
      List.takeWhile_append_dropWhile _ _
    have hrep : b.data.reverse.takeWhile (fun ch => ch = '/')
        = List.replicate (b.data.reverse.takeWhile (fun ch => ch = '/')).length '/' := by
      refine List.eq_replicate_of_mem ?_
      intro ch hch
      have := List.mem_takeWhile_imp hch
      simpa using this
    have hrev : (b.data.reverse.takeWhile (fun ch => ch = '/')).reverse
        = List.replicate (b.data.reverse.takeWhile (fun ch => ch = '/')).length '/' := by
      rw [hrep]
      simp
    calc b.data = b.data.reverse.reverse := by rw [List.reverse_reverse]
    _ = (b.data.reverse.takeWhile (fun ch => ch = '/')
          ++ b.data.reverse.dropWhile (fun ch => ch = '/')).reverse := by rw [hsplit]
    _ = (b.data.reverse.dropWhile (fun ch => ch = '/')).reverse
          ++ (b.data.reverse.takeWhile (fun ch => ch = '/')).reverse := by
        rw [List.reverse_append]
    _ = (b.data.reverse.dropWhile (fun ch => ch = '/')).reverse
          ++ List.replicate (b.data.reverse.takeWhile (fun ch => ch = '/')).length '/' := by
        rw [hrev]
    _ = (⟨(b.data.reverse.dropWhile (fun ch => ch = '/')).reverse⟩ : String).data
          ++ List.replicate (b.data.reverse.takeWhile (fun ch => ch = '/')).length '/' := rfl

/-- Witness for C4 at the concrete repeated-trailing-slash input. -/
theorem C4_witness :
    (cDemo2.base_url = rstripSlash "http://x//"
      ∧ cDemo2.base_url.data.getLast? ≠ some '/'
      ∧ ("http://x//" : String).data = cDemo2.base_url.data
          ++ List.replicate
              (("http://x//" : String).data.reverse.takeWhile (fun ch => ch = '/')).length
              '/') :=
  C4_base_url_rstrip "http://x//" "Bearer t" cDemo2 rfl

/-- C5 counterexample: `create_project` passes `expected_status=201`, so a
201 response with a parsed body is a success returning that body — it does
not raise `SysMLV2APIError` with status code 201 as the claim (expected
status 200) predicts. -/
theorem C5_counterexample :
    cDemo.create_project (Json.obj [("name", Json.str "p")])
        (.ok ⟨201, "body", .ok (Json.obj [("id", Json.str "1")])⟩)
      = .ok (Json.obj [("id", Json.str "1")]) := rfl

/-- C5 (amended): `create_project` issues POST to `/projects` with expected
success status 201: a response of status 200 (not otherwise classified)
raises the generic `SysMLV2APIError` carrying status code 200, while a 201
response with a parsed body returns that body. -/
theorem C5_create_project_expected_201 (st : SysMLV2Client) (project_data : Json)
    (resp : Resp) (j : Json) :
    (resp.status = 200 →
      st.create_project project_data (.ok resp)
        = .error (mkSysMLV2APIError 200
            ("Unexpected status code for POST /projects. Response: " ++ resp.text))
      ∧ (mkSysMLV2APIError 200
          ("Unexpected status code for POST /projects. Response: " ++ resp.text)).statusCode
        = some 200)
    ∧ (resp.status = 201 → resp.text ≠ "" → resp.parsed = .ok j →
        st.create_project project_data (.ok resp) = .ok j) := by
  constructor
  · intro h
    refine ⟨?_, rfl⟩
    simp [SysMLV2Client.create_project, SysMLV2Client.request, h]
  · intro hs ht hp
    simp [SysMLV2Client.create_project, SysMLV2Client.request, hs, ht, hp]

/-- Witness for C5: a 200 response raises `SysMLV2APIError` with status
code 200; a 201 response succeeds. -/
theorem C5_witness :
    (cDemo.create_project (Json.obj [("name", Json.str "p")])
        (.ok ⟨200, "ok", .ok (Json.obj [])⟩)
      = .error (mkSysMLV2APIError 200
          "Unexpected status code for POST /projects. Response: ok"))
    ∧ cDemo.create_project (Json.obj [("name", Json.str "p")])
        (.ok ⟨201, "body", .ok (Json.obj [("id", Json.str "1")])⟩)
      = .ok (Json.obj [("id", Json.str "1")]) :=
  ⟨((C5_create_project_expected_201 cDemo (Json.obj [("name", Json.str "p")])
      ⟨200, "ok", .ok (Json.obj [])⟩ (Json.obj [])).1 rfl).1,
   (C5_create_project_expected_201 cDemo (Json.obj [("name", Json.str "p")])
      ⟨201, "body", .ok (Json.obj [("id", Json.str "1")])⟩
      (Json.obj [("id", Json.str "1")])).2 rfl (by decide) rfl⟩

/-- C6: a transport failure is re-raised as the bare `SysMLV2Error` whose
message names the target URL and wraps the original failure text; a body
that fails JSON decoding on an otherwise-successful response is re-raised
as the bare `SysMLV2Error` naming the URL and including the raw response
text; and on a completed transport with no such decode failure, no raised
error has the bare `SysMLV2Error` class — those are the only two triggers. -/
theorem C6_transport_errors (st : SysMLV2Client) (method endpoint : String)
    (data : Option Json) (expected_status : Nat) (outcome : TransportOutcome) :
    (∀ e, outcome = .error e →
      st.request method endpoint data expected_status outcome
        = .error (mkSysMLV2Error
            ("Network error during request to " ++ (st.base_url ++ endpoint) ++ ": " ++ e)))
    ∧ (∀ resp pe, outcome = .ok resp →
        resp.status ≠ 401 → resp.status ≠ 403 → resp.status ≠ 404 →
        resp.status ≠ 400 → resp.status ≠ 409 →
        resp.status = expected_status → resp.status ≠ 204 → resp.text ≠ "" →
        resp.parsed = .error pe →
        st.request method endpoint data expected_status outcome
          = .error (mkSysMLV2Error
              ("Failed to decode JSON response from " ++ (st.base_url ++ endpoint)
                ++ ": " ++ pe ++ ". Response text: " ++ resp.text)))
    ∧ (∀ resp err, outcome = .ok resp →
        st.request method endpoint data expected_status outcome = .error err →
        err.cls = PyExcClass.sysmlv2Error →
        resp.parsed.isOk = false ∧ resp.status = expected_status
          ∧ resp.status ≠ 204 ∧ resp.text ≠ "") := by
  refine ⟨?_, ?_, ?_⟩
  · intro e ho
    subst ho
    rfl
  · intro resp pe ho h401 h403 h404 h400 h409 hexp h204 htext hparsed
    subst ho
    show (if resp.status = 401 ∨ resp.status = 403 then _ else _) = _
    rw [if_neg (fun hc => hc.elim h401 h403), if_neg h404, if_neg h400, if_neg h409,
      if_neg (not_not_intro hexp), if_neg (fun hc => hc.elim h204 htext), hparsed]
  · intro resp err ho h hcls
    subst ho
    rw [show st.request method endpoint data expected_status (.ok resp)
        = (if resp.status = 401 ∨ resp.status = 403 then
            Except.error (mkSysMLV2AuthError
              ("Authentication failed: " ++ toString resp.status ++ " - " ++ resp.text))
          else if resp.status = 404 then
            .error (mkSysMLV2NotFoundError
              ("Resource not found at " ++ endpoint ++ ": " ++ resp.text))
          else if resp.status = 400 then
            .error (mkSysMLV2BadRequestError
              ("Bad request for " ++ endpoint ++ ": "
                ++ (match resp.parsed with
                    | .ok j => pyStr j
                    | .error _ => resp.text)))
          else if resp.status = 409 then
            .error (mkSysMLV2ConflictError
              ("Conflict detected for " ++ endpoint ++ ": " ++ resp.text))
          else if resp.status ≠ expected_status then
            .error (mkSysMLV2APIError resp.status
              ("Unexpected status code for " ++ method ++ " " ++ endpoint
                ++ ". Response: " ++ resp.text))
          else if resp.status = 204 ∨ resp.text = "" then
            .ok (Json.obj [])
          else
            match resp.parsed with
            | .ok j => .ok j
            | .error e =>
              .error (mkSysMLV2Error
                ("Failed to decode JSON response from " ++ (st.base_url ++ endpoint)
                  ++ ": " ++ e ++ ". Response text: " ++ resp.text))) from rfl] at h
    split at h
    · injection h with h
      rw [← h] at hcls
      exact absurd hcls (by simp [mkSysMLV2AuthError])
    · split at h
      · injection h with h
        rw [← h] at hcls
        exact absurd hcls (by simp [mkSysMLV2NotFoundError, apiErrorInit])
      · split at h
        · injection h with h
          rw [← h] at hcls
          exact absurd hcls (by simp [mkSysMLV2BadRequestError, apiErrorInit])
        · split at h
          · injection h with h
            rw [← h] at hcls
            exact absurd hcls (by simp [mkSysMLV2ConflictError, apiErrorInit])
          · split at h
            · injection h with h
              rw [← h] at hcls
              exact absurd hcls (by simp [mkSysMLV2APIError, apiErrorInit])
            · split at h
              · exact absurd h (by simp)
              · rename_i hs1 hs2 hs3 hs4 hs5 hs6
                split at h
                · exact absurd h (by simp)
                · rename_i e heq
                  refine ⟨?_, not_not.mp hs5, ?_, ?_⟩
                  · rw [heq]
                    rfl
                  · intro hc
                    exact hs6 (Or.inl hc)
                  · intro hc
                    exact hs6 (Or.inr hc)

/-- Witness for C6: a transport failure and a decode failure, each at a
concrete input. -/
theorem C6_witness :
    cDemo.request "GET" "/projects" none 200 (.error "boom")
      = .error (mkSysMLV2Error "Network error during request to http://t/projects: boom")
    ∧ cDemo.request "GET" "/projects" none 200 (.ok ⟨200, "not json", .error "bad"⟩)
      = .error (mkSysMLV2Error
          ("Failed to decode JSON response from http://t/projects: bad"
            ++ ". Response text: not json")) :=
  ⟨(C6_transport_errors cDemo "GET" "/projects" none 200 (.error "boom")).1 "boom" rfl,
   (C6_transport_errors cDemo "GET" "/projects" none 200
      (.ok ⟨200, "not json", .error "bad"⟩)).2.1 ⟨200, "not json", .error "bad"⟩ "bad"
      rfl (by decide) (by decide) (by decide) (by decide) (by decide) rfl (by decide)
      (by decide) rfl⟩

/-- C7: on an expected-success response of status 204 or with an empty
body, every operation of the client succeeds without raising: the
object-returning operations return the empty object, the list-normalized
operations return the empty list, and `delete_element` returns `None`. -/
theorem C7_empty_body_success (st : SysMLV2Client)
    (project_id element_id commit_id : String) (pd : Json)
    (r200 r201 r204 : Resp)
    (h200s : r200.status = 200) (h200t : r200.text = "")
    (h201s : r201.status = 201) (h201t : r201.text = "")
    (h204s : r204.status = 204) :
    st.get_element project_id element_id commit_id (.ok r200) = .ok (Json.obj [])
    ∧ st.update_element project_id element_id pd commit_id (.ok r200) = .ok (Json.obj [])
    ∧ st.create_project pd (.ok r201) = .ok (Json.obj [])
    ∧ st.create_element project_id pd commit_id (.ok r201) = .ok (Json.obj [])
    ∧ st.create_commit project_id pd (.ok r201) = .ok (Json.obj [])
    ∧ st.delete_element project_id element_id commit_id (.ok r204) = .ok ()
    ∧ st.get_projects (.ok r200) = .ok (Json.arr [])
    ∧ st.get_owned_elements project_id element_id commit_id (.ok r200) = .ok (Json.arr []) := by
  refine ⟨?_, ?_, ?_, ?_, ?_, ?_, ?_, ?_⟩
  · simp [SysMLV2Client.get_element, SysMLV2Client.request, h200s, h200t]
  · simp [SysMLV2Client.update_element, SysMLV2Client.request, h200s, h200t]
  · simp [SysMLV2Client.create_project, SysMLV2Client.request, h201s, h201t]
  · simp [SysMLV2Client.create_element, SysMLV2Client.request, h201s, h201t]
  · simp [SysMLV2Client.create_commit, SysMLV2Client.request, h201s, h201t]
  · simp [SysMLV2Client.delete_element, SysMLV2Client.request, h204s]
  · simp [SysMLV2Client.get_projects, SysMLV2Client.request, h200s, h200t,
      extractElements, List.lookup]
  · simp [SysMLV2Client.get_owned_elements, SysMLV2Client.request, h200s, h200t,
      extractElements, List.lookup]

/-- Witness for C7 at concrete empty-body responses. -/
theorem C7_witness :
    cDemo.get_element "p" "e" "m" (.ok ⟨200, "", .error "no body"⟩) = .ok (Json.obj [])
    ∧ cDemo.update_element "p" "e" (Json.obj []) "m" (.ok ⟨200, "", .error "no body"⟩)
        = .ok (Json.obj [])
    ∧ cDemo.create_project (Json.obj []) (.ok ⟨201, "", .error "no body"⟩)
        = .ok (Json.obj [])
    ∧ cDemo.create_element "p" (Json.obj []) "m" (.ok ⟨201, "", .error "no body"⟩)
        = .ok (Json.obj [])
    ∧ cDemo.create_commit "p" (Json.obj []) (.ok ⟨201, "", .error "no body"⟩)
        = .ok (Json.obj [])
    ∧ cDemo.delete_element "p" "e" "m" (.ok ⟨204, "", .error "no body"⟩) = .ok ()
    ∧ cDemo.get_projects (.ok ⟨200, "", .error "no body"⟩) = .ok (Json.arr [])
    ∧ cDemo.get_owned_elements "p" "e" "m" (.ok ⟨200, "", .error "no body"⟩)
        = .ok (Json.arr []) :=
  C7_empty_body_success cDemo "p" "e" "m" (Json.obj [])
    ⟨200, "", .error "no body"⟩ ⟨201, "", .error "no body"⟩ ⟨204, "", .error "no body"⟩
    rfl rfl rfl rfl rfl

/-- C8 counterexample: a provided-but-empty JSON object body is falsy in
Python, so line 74 drops it — no body is sent, contrary to the claim that
it is serialized and sent. -/
theorem C8_counterexample :
    sentBody (some (Json.obj [])) = none
    ∧ (none : Option String) ≠ some (jsonDumps (Json.obj [])) :=
  ⟨rfl, by simp⟩

/-- C8 (amended): a provided body is serialized to a JSON string and sent
exactly when it is truthy; when no body is provided, or the provided body
is falsy — in particular an empty JSON object — no body is sent. -/
theorem C8_body_serialization (d : Json) (fs : List (String × Json)) :
    sentBody none = none
    ∧ (pyTruthy d = true → sentBody (some d) = some (jsonDumps d))
    ∧ (pyTruthy d = false → sentBody (some d) = none)
    ∧ sentBody (some (Json.obj fs))
        = (if fs.isEmpty then none else some (jsonDumps (Json.obj fs))) := by
  refine ⟨rfl, ?_, ?_, ?_⟩
  · intro h
    simp [sentBody, h]
  · intro h
    simp [sentBody, h]
  · cases fs <;> simp [sentBody, pyTruthy]

/-- Witness for C8: a non-empty body is serialized and sent; an empty
object body is dropped. -/
theorem C8_witness :
    sentBody (some (Json.obj [("name", Json.str "p")]))
      = some (jsonDumps (Json.obj [("name", Json.str "p")]))
    ∧ sentBody (some (Json.obj []))
        = (if ([] : List (String × Json)).isEmpty then none
           else some (jsonDumps (Json.obj []))) :=
  ⟨(C8_body_serialization (Json.obj [("name", Json.str "p")]) []).2.1 rfl,
   (C8_body_serialization (Json.obj []) []).2.2.2⟩

/-- C9 counterexample: when the object response's `elements` key maps to a
non-array value, `get_projects` returns that value as-is — the returned
value is not always a JSON array. -/
theorem C9_counterexample :
    cDemo.get_projects (.ok ⟨200, "b", .ok (Json.obj [("elements", Json.num 5)])⟩)
      = .ok (Json.num 5)
    ∧ (Json.num 5).isArr = false :=
  ⟨rfl, rfl⟩

/-- C9 (amended): the list-normalized operations return the normalization
of the parsed response, and that normalization is a JSON array in every
case except an object whose `elements` key maps to a non-array value,
which is returned as-is. -/
theorem C9_normalized_shape (st : SysMLV2Client)
    (project_id element_id commit_id : String)
    (o₁ o₂ : TransportOutcome) (j k m : Json)
    (h₁ : st.request "GET" "/projects" none 200 o₁ = .ok j)
    (h₂ : st.request "GET"
        ("/projects/" ++ project_id ++ "/commits/" ++ commit_id ++
         "/elements/" ++ element_id ++ "/owned") none 200 o₂ = .ok k) :
    st.get_projects o₁ = .ok (extractElements j)
    ∧ st.get_owned_elements project_id element_id commit_id o₂ = .ok (extractElements k)
    ∧ ((∀ fs v, m = Json.obj fs → fs.lookup "elements" = some v → v.isArr = true) →
        (extractElements m).isArr = true)
    ∧ (∀ fs v, m = Json.obj fs → fs.lookup "elements" = some v → extractElements m = v) := by
  refine ⟨?_, ?_, ?_, ?_⟩
  · simp [SysMLV2Client.get_projects, h₁]
  · simp [SysMLV2Client.get_owned_elements, h₂]
  · intro hobj
    cases m with
    | obj fs =>
      cases hl : fs.lookup "elements" with
      | none => simp [extractElements, hl, Json.isArr]
      | some v =>
        have := hobj fs v rfl hl
        simp [extractElements, hl, this]
    | arr xs => simp [extractElements, Json.isArr]
    | null => simp [extractElements, Json.isArr]
    | bool b => simp [extractElements, Json.isArr]
    | num n => simp [extractElements, Json.isArr]
    | str s => simp [extractElements, Json.isArr]
  · intro fs v hm hl
    subst hm
    simp [extractElements, hl]

/-- Witness for C9: a wrapped-array response yields an array. -/
theorem C9_witness :
    cDemo.get_projects
        (.ok ⟨200, "b", .ok (Json.obj [("elements", Json.arr [Json.str "p1"])])⟩)
      = .ok (extractElements (Json.obj [("elements", Json.arr [Json.str "p1"])]))
    ∧ (extractElements (Json.obj [("elements", Json.arr [Json.str "p1"])])).isArr = true := by
  have h := C9_normalized_shape cDemo "p" "e" "m"
    (.ok ⟨200, "b", .ok (Json.obj [("elements", Json.arr [Json.str "p1"])])⟩)
    (.ok ⟨200, "b", .ok (Json.arr [])⟩)
    (Json.obj [("elements", Json.arr [Json.str "p1"])]) (Json.arr [])
    (Json.obj [("elements", Json.arr [Json.str "p1"])]) rfl rfl
  refine ⟨h.1, h.2.2.1 ?_⟩
  intro fs v hfs hl
  injection hfs with hfs
  subst hfs
  have : v = Json.arr [Json.str "p1"] := by
    simpa [List.lookup] using hl.symm
  subst this
  rfl
